import Mathlib

/-!
Shallow embedding of the Vevor BLE heater protocol engine
(`src/heater.py`): the frame codec (outgoing command frames, incoming
status frames with field-range verification and checksum) and the
command session's notification-correlation loop.

Bytes are modelled as `Nat` values below 256; multi-byte little-endian
fields as their `Nat` values; Python `None`-able fields as `Option`;
Python exceptions as `Option.none` results.
-/

namespace Vevor

/-- Python enum `PowerStatus`: OFF = 0, RUNNING = 1, ERROR = 2. -/
inductive PowerStatus where
  | off
  | running
  | error
  deriving DecidableEq, Repr

/-- Enum lookup `PowerStatus(n)`, raising (here `none`) on an
unknown value. -/
def PowerStatus.ofNat? : Nat → Option PowerStatus
  | 0 => some .off
  | 1 => some .running
  | 2 => some .error
  | _ => none

/-- Python enum `OperationalStatus`: WARMUP = 0 .. SHUTTING_DOWN = 4. -/
inductive OperationalStatus where
  | warmup
  | selfTestRunning
  | ignition
  | heating
  | shuttingDown
  deriving DecidableEq, Repr

/-- Enum lookup `OperationalStatus(n)`. -/
def OperationalStatus.ofNat? : Nat → Option OperationalStatus
  | 0 => some .warmup
  | 1 => some .selfTestRunning
  | 2 => some .ignition
  | 3 => some .heating
  | 4 => some .shuttingDown
  | _ => none

/-- Python enum `OperationalMode`: POWER_LEVEL = 1, TARGET_TEMPERATURE = 2. -/
inductive OperationalMode where
  | powerLevel
  | targetTemperature
  deriving DecidableEq, Repr

/-- Enum lookup `OperationalMode(n)`. -/
def OperationalMode.ofNat? : Nat → Option OperationalMode
  | 1 => some .powerLevel
  | 2 => some .targetTemperature
  | _ => none

/-- Python enum `HeaterError`: NO_ERROR = 0 .. IGNITION_FAILURE = 10. -/
inductive HeaterError where
  | noError
  | powerSupplyUndervoltage
  | powerSupplyOvervoltage
  | ignitionCoilFailure
  | fuelPumpFailure
  | highTemperatureAlarm
  | fanFailure
  | cableDamage
  | combustionFailure
  | sensorFailure
  | ignitionFailure
  deriving DecidableEq, Repr

/-- Enum lookup `HeaterError(n)`. -/
def HeaterError.ofNat? : Nat → Option HeaterError
  | 0 => some .noError
  | 1 => some .powerSupplyUndervoltage
  | 2 => some .powerSupplyOvervoltage
  | 3 => some .ignitionCoilFailure
  | 4 => some .fuelPumpFailure
  | 5 => some .highTemperatureAlarm
  | 6 => some .fanFailure
  | 7 => some .cableDamage
  | 8 => some .combustionFailure
  | 9 => some .sensorFailure
  | 10 => some .ignitionFailure
  | _ => none

/-- Dataclass `VevorHeaterStatusBle`: the raw fields unpacked from a notification
buffer by `struct.unpack("<HBBBBHBBBHHHBxB", buffer)`.  Multi-byte
little-endian fields are stored as their assembled `Nat` values. -/
structure VevorHeaterStatusBle where
  magic_constant : Nat := 0
  request_type : Nat := 0
  power_status : Nat := 0
  error : Nat := 0
  operational_status : Nat := 0
  elevation : Nat := 0
  operational_mode : Nat := 0
  target_temperature_or_level : Nat := 0
  current_power_level : Nat := 0
  input_voltage_decivolts : Nat := 0
  combustion_temperature : Nat := 0
  room_temperature : Nat := 0
  display_error : Nat := 0
  checksum : Nat := 0
  deriving DecidableEq, Repr

/-- Dataclass `VevorHeaterStatus`: the validated domain record.  Every dataclass
field defaults to `None`; `input_voltage` is `input_voltage_decivolts /
10.0` in the source, stored here as the raw decivolt count (the `/ 10.0`
float scaling carries no information). -/
structure VevorHeaterStatus where
  power_status : Option PowerStatus := none
  operational_mode : Option OperationalMode := none
  operational_status : Option OperationalStatus := none
  elevation : Option Nat := none
  target_temperature : Option Nat := none
  target_power_level : Option Nat := none
  current_power_level : Option Nat := none
  input_voltage_decivolts : Option Nat := none
  combustion_temperature : Option Nat := none
  room_temperature : Option Nat := none
  error : Option HeaterError := none
  deriving DecidableEq, Repr

/-- The checksum recomputed by `_verify`: the sum of the eleven listed
field values, mod 256. -/
def checksumOf (s : VevorHeaterStatusBle) : Nat :=
  (s.power_status + s.error + s.operational_status + s.elevation +
   s.operational_mode + s.target_temperature_or_level +
   s.current_power_level + s.input_voltage_decivolts +
   s.combustion_temperature + s.room_temperature + s.display_error) % 256

/-- The `_verification_errors` list built by `VevorHeaterStatusBle._verify`,
in append order.  The `request_type` test embeds the source line
`if self.request_type <= 0 not in range(1, 5):` literally: in Python the
chained comparison means `(self.request_type <= 0) and (0 not in
range(1, 5))`, and the second conjunct is the constant `True`. -/
def verifyErrors (s : VevorHeaterStatusBle) : List String :=
  (if s.power_status ≠ 0 then
    (if s.request_type ≤ 0 ∧ ¬ (1 ≤ 0 ∧ 0 < 5) then ["request_type"] else [])
    ++ (if s.power_status ∉ [0, 1, 2] then ["power_status"] else [])
    ++ (if ¬ s.error < 11 then ["error"] else [])
    ++ (if ¬ s.operational_status < 5 then ["operational_status"] else [])
    ++ (if s.operational_mode ∉ [0, 1, 2] then ["operational_mode"]
        else
          let allowed : Nat × Nat :=
            if s.operational_mode = 1 then (1, 11)
            else if s.operational_mode = 2 then (8, 37)
            else (0, 1)
          if ¬ (allowed.1 ≤ s.target_temperature_or_level ∧
                s.target_temperature_or_level < allowed.2) then
            ["target_temperature_or_level"]
          else [])
    ++ (if s.operational_mode = 2 ∧ ¬ s.current_power_level < 10 then
          ["current_power_level"] else [])
    ++ (if ¬ s.display_error < 11 then ["display_error"] else [])
   else [])
  ++ (if checksumOf s ≠ s.checksum then ["checksum"] else [])

/-- Method `_verify` returns `True` exactly when no verification error was
collected. -/
def verify (s : VevorHeaterStatusBle) : Bool :=
  (verifyErrors s).isEmpty

/-- Conversion `VevorHeaterStatus.from_ble_status`.  The Python conditional
`if OperationalMode == OperationalMode.TARGET_TEMPERATURE:` compares the
enum *class* to one of its members, which is always false in Python, so
the `+ 1` branch is dead; the embedding keeps that conditional as the
literal `False` it evaluates to.  A `none` result models a raised
exception (an enum lookup on an out-of-range value). -/
def from_ble_status (s : VevorHeaterStatusBle) : Option VevorHeaterStatus :=
  if s.power_status = 0 then
    some { power_status := some PowerStatus.off }
  else
    (if s.operational_mode ≠ 0 then
       (OperationalMode.ofNat? s.operational_mode).map some
     else some none).bind fun opmode =>
    (PowerStatus.ofNat? s.power_status).bind fun ps =>
    (OperationalStatus.ofNat? s.operational_status).bind fun os =>
    (if s.display_error ≠ 0 then HeaterError.ofNat? s.display_error
     else some HeaterError.noError).bind fun err =>
    let target_temp_or_level := s.target_temperature_or_level
    let current_power_level :=
      if False then s.current_power_level + 1 else target_temp_or_level
    some
      { power_status := some ps
        operational_mode := opmode
        operational_status := some os
        elevation := some s.elevation
        target_temperature :=
          if opmode = some OperationalMode.targetTemperature then
            some target_temp_or_level
          else none
        target_power_level :=
          if opmode = some OperationalMode.powerLevel then
            some target_temp_or_level
          else none
        current_power_level := some current_power_level
        input_voltage_decivolts := some s.input_voltage_decivolts
        combustion_temperature := some s.combustion_temperature
        room_temperature := some s.room_temperature
        error := some err }

/-- The call `struct.unpack("<HBBBBHBBBHHHBxB", buffer)` as used by
`from_ble_data_array`: the format describes exactly 20 bytes
(`struct.calcsize` = 20), and `struct.unpack` raises `struct.error`
(here `none`) on any other buffer length.  Byte 18 is the `x` pad. -/
def unpack_status (buffer : List Nat) : Option VevorHeaterStatusBle :=
  if buffer.length = 20 then
    some
      { magic_constant := buffer.getD 0 0 + 256 * buffer.getD 1 0
        request_type := buffer.getD 2 0
        power_status := buffer.getD 3 0
        error := buffer.getD 4 0
        operational_status := buffer.getD 5 0
        elevation := buffer.getD 6 0 + 256 * buffer.getD 7 0
        operational_mode := buffer.getD 8 0
        target_temperature_or_level := buffer.getD 9 0
        current_power_level := buffer.getD 10 0
        input_voltage_decivolts := buffer.getD 11 0 + 256 * buffer.getD 12 0
        combustion_temperature := buffer.getD 13 0 + 256 * buffer.getD 14 0
        room_temperature := buffer.getD 15 0 + 256 * buffer.getD 16 0
        display_error := buffer.getD 17 0
        checksum := buffer.getD 19 0 }
  else none

/-- Decoder `VevorHeaterStatusBle.from_ble_data_array`.  Outer `none`: the
`struct.unpack` call raised (the exception escapes the function);
`some none`: the frame unpacked but `_verify` failed, the function logs
and returns Python `None`; `some (some s)`: the verified frame. -/
def from_ble_data_array (buffer : List Nat) :
    Option (Option VevorHeaterStatusBle) :=
  match unpack_status buffer with
  | none => none
  | some s => if verify s then some (some s) else some none

/-- The outgoing frame built by `VevorDevice._set_operational_mode`:
`data = bytearray([0xAA, 0x55, 0x0C, 0x22, 0x02, mode.value, 0x00, 0x00])`,
then `data[-1] = sum(data[2:]) % 256`. -/
def set_operational_mode_data (mode : Nat) : List Nat :=
  let data : List Nat := [0xAA, 0x55, 0x0C, 0x22, 0x02, mode, 0x00, 0x00]
  data.set 7 ((data.drop 2).sum % 256)

/-- The outgoing frame built by `VevorDevice._set_target`. -/
def set_target_data (target : Nat) : List Nat :=
  let data : List Nat := [0xAA, 0x55, 0x0C, 0x22, 0x04, target, 0x00, 0x00]
  data.set 7 ((data.drop 2).sum % 256)

/-- The hard-coded frame written by `VevorDevice.refresh_status`. -/
def refresh_status_data : List Nat :=
  [0xAA, 0x55, 0x0C, 0x22, 0x01, 0x00, 0x00, 0x2F]

/-- The hard-coded frame written by `VevorDevice.turn_on`. -/
def turn_on_data : List Nat :=
  [0xAA, 0x55, 0x0C, 0x22, 0x03, 0x01, 0x00, 0x32]

/-- The hard-coded frame written by `VevorDevice.turn_off`. -/
def turn_off_data : List Nat :=
  [0xAA, 0x55, 0x0C, 0x22, 0x03, 0x00, 0x00, 0x31]

/-- The notification-wait loop of `VevorDevice._send_ble_command`, run
over the sequence of notification buffers the transport delivers.
`data` is the outgoing frame (the handler compares each response's
`request_type` against `data[4]`).

Per notification, `notification_handler` runs:
  * `from_ble_data_array` raises (wrong buffer length): the exception
    escapes the handler before `response_received_latch.set()`, so the
    wait continues with the next notification;
  * it returns `None` (failed `_verify`): logs, leaves `response = None`,
    sets the latch — the call resolves with `None`;
  * `status.request_type != data[4]`: logs, leaves `response = None`,
    sets the latch — the call resolves with `None`;
  * otherwise `response = from_ble_status(status)` then the latch is set
    — the call resolves with the converted status (a raising conversion
    would again skip the `latch.set()`).

Result `none`: no notification ever sets the latch, the `await` blocks
forever; `some r`: the call returns `r`. -/
def awaitResponse (data : List Nat) :
    List (List Nat) → Option (Option VevorHeaterStatus)
  | [] => none
  | buffer :: rest =>
    match from_ble_data_array buffer with
    | none => awaitResponse data rest
    | some none => some none
    | some (some status) =>
      if status.request_type ≠ data.getD 4 0 then some none
      else
        match from_ble_status status with
        | some st => some (some st)
        | none => awaitResponse data rest

/-- The caller-side update all composite operations perform on the
session state: `if response is not None: self.status = response`. -/
def sessionUpdate (old : Option VevorHeaterStatus)
    (response : Option VevorHeaterStatus) : Option VevorHeaterStatus :=
  match response with
  | some st => some st
  | none => old

/-! Concrete frames used to instantiate the theorems. -/

/-- A frame whose `power_status` byte is zero; every other verified field
is zero, so the recomputed checksum is 0. -/
def off_frame : VevorHeaterStatusBle := { }

/-- The all-zero frame with its checksum byte flipped to 1. -/
def bad_checksum_frame : VevorHeaterStatusBle := { checksum := 1 }

/-- A powered-on TargetTemperature frame: raw `current_power_level` 3,
target 20, checksum `(1 + 3 + 2 + 20 + 3 + 120) % 256 = 149`. -/
def target_temp_frame : VevorHeaterStatusBle :=
  { request_type := 1, power_status := 1, error := 0, operational_status := 3,
    elevation := 0, operational_mode := 2, target_temperature_or_level := 20,
    current_power_level := 3, input_voltage_decivolts := 120,
    combustion_temperature := 0, room_temperature := 0, display_error := 0,
    checksum := 149 }

/-- A powered-on PowerLevel frame with `request_type = 5`; checksum
`(1 + 1 + 7 + 7) % 256 = 16` (the `request_type` byte is not summed). -/
def request_type_5_frame : VevorHeaterStatusBle :=
  { request_type := 5, power_status := 1, operational_mode := 1,
    target_temperature_or_level := 7, current_power_level := 7,
    checksum := 16 }

/-- The same frame with `request_type = 0`. -/
def request_type_0_frame : VevorHeaterStatusBle :=
  { request_type_5_frame with request_type := 0 }

/-- A powered-on frame with `operational_mode = 0` (accepted by
`_verify`, whose target range for that mode is `range(1)`). -/
def mode_zero_frame : VevorHeaterStatusBle :=
  { request_type := 1, power_status := 1, checksum := 1 }

/-- A powered-on PowerLevel frame answering a SET_OP_MODE request. -/
def power_level_frame : VevorHeaterStatusBle :=
  { request_type := 2, power_status := 1, operational_mode := 1,
    target_temperature_or_level := 7, current_power_level := 7,
    checksum := 16 }

/-- A 20-byte notification buffer that unpacks to a verified frame with
`request_type = 2`, so it does not match a READ_STATUS request. -/
def mismatch_buffer : List Nat :=
  [0, 0, 2, 1, 0, 3, 0, 0, 2, 20, 3, 120, 0, 0, 0, 0, 0, 0, 0, 149]

/-- The same buffer with `request_type = 1`, matching READ_STATUS. -/
def match_buffer : List Nat :=
  [0, 0, 1, 1, 0, 3, 0, 0, 2, 20, 3, 120, 0, 0, 0, 0, 0, 0, 0, 149]

/-- A 20-byte buffer whose checksum byte is wrong, so `_verify` fails. -/
def unverified_buffer : List Nat :=
  [0, 0, 1, 1, 0, 3, 0, 0, 2, 20, 3, 120, 0, 0, 0, 0, 0, 0, 0, 150]

/-- The domain status decoded from `match_buffer` / `mismatch_buffer`. -/
def match_buffer_status : VevorHeaterStatus :=
  { power_status := some PowerStatus.running
    operational_mode := some OperationalMode.targetTemperature
    operational_status := some OperationalStatus.heating
    elevation := some 0
    target_temperature := some 20
    target_power_level := none
    current_power_level := some 20
    input_voltage_decivolts := some 120
    combustion_temperature := some 0
    room_temperature := some 0
    error := some HeaterError.noError }

/-! Helper lemmas about `verifyErrors`. -/

lemma if_singleton_eq_nil {c : Prop} [Decidable c] {a : String} :
    ((if c then [a] else ([] : List String)) = []) ↔ ¬c := by
  split <;> simp_all

/-- Unfolding `verify s = true` for a powered-on frame into the range
facts `_verify` enforces (including the degenerate `request_type` check
the chained comparison actually performs). -/
lemma verify_true_ranges (s : VevorHeaterStatusBle) (hv : verify s = true)
    (hp : s.power_status ≠ 0) :
    s.request_type ≠ 0 ∧
    (s.power_status = 1 ∨ s.power_status = 2) ∧
    s.error < 11 ∧
    s.operational_status < 5 ∧
    (s.operational_mode = 0 ∨ s.operational_mode = 1 ∨
      s.operational_mode = 2) ∧
    (s.operational_mode = 1 → 1 ≤ s.target_temperature_or_level ∧
      s.target_temperature_or_level < 11) ∧
    (s.operational_mode = 2 → 8 ≤ s.target_temperature_or_level ∧
      s.target_temperature_or_level < 37) ∧
    (s.operational_mode = 0 → s.target_temperature_or_level = 0) ∧
    (s.operational_mode = 2 → s.current_power_level < 10) ∧
    s.display_error < 11 ∧
    checksumOf s = s.checksum := by
  have hnil : verifyErrors s = [] := by
    simpa [verify, List.isEmpty_iff] using hv
  rw [verifyErrors, if_pos hp] at hnil
  simp only [List.append_eq_nil] at hnil
  obtain ⟨⟨⟨⟨⟨⟨⟨h1, h2⟩, h3⟩, h4⟩, h5⟩, h6⟩, h7⟩, h8⟩ := hnil
  rw [if_singleton_eq_nil] at h1 h2 h3 h4 h6 h7 h8
  have hmode : s.operational_mode = 0 ∨ s.operational_mode = 1 ∨
      s.operational_mode = 2 := by
    by_cases hm : s.operational_mode ∈ [0, 1, 2]
    · simpa using hm
    · rw [if_pos hm] at h5; exact absurd h5 (by simp)
  have hmemMode : s.operational_mode ∈ [0, 1, 2] := by simpa using hmode
  rw [if_neg (not_not_intro hmemMode), if_singleton_eq_nil, not_not] at h5
  refine ⟨?_, ?_, not_not.mp h3, not_not.mp h4, hmode, ?_, ?_, ?_, ?_,
    not_not.mp h7, not_not.mp h8⟩
  · intro h0; exact h1 ⟨by omega, by omega⟩
  · have hmem := not_not.mp h2
    simp only [List.mem_cons, List.not_mem_nil, or_false] at hmem
    omega
  · intro hm1; rw [hm1] at h5; simpa using h5
  · intro hm2; rw [hm2] at h5; simpa using h5
  · intro hm0; rw [hm0] at h5; simp at h5; omega
  · intro hm2; by_contra hcp; exact h6 ⟨hm2, hcp⟩

/-- C2: the claim says a validated powered-on frame in TargetTemperature
mode derives `current_power_level = raw_current_power_level + 1`; the
code's comparison `OperationalMode == OperationalMode.TARGET_TEMPERATURE`
is always false, so it derives `target_temperature_or_level` instead.
On the verified frame `target_temp_frame` (mode 2, raw level 3, target
20) the decoded `current_power_level` is 20, not 4. -/
theorem c2_current_power_level_eval :
    verify target_temp_frame = true ∧
    target_temp_frame.operational_mode = 2 ∧
    target_temp_frame.current_power_level = 3 ∧
    target_temp_frame.target_temperature_or_level = 20 ∧
    (from_ble_status target_temp_frame).map
        (fun st => st.current_power_level) = some (some 20) ∧
    (from_ble_status target_temp_frame).map
        (fun st => st.current_power_level) ≠
      some (some (target_temp_frame.current_power_level + 1)) := by
  decide

/-- C3: the claim says every `request_type` outside `[1, 4]` is rejected;
the code line `if self.request_type <= 0 not in range(1, 5):` is a
chained comparison equivalent to `self.request_type <= 0`, so
`request_type = 5` passes verification while `request_type = 0` is
rejected (with `"request_type"` recorded). -/
theorem c3_request_type_check_eval :
    verify request_type_5_frame = true ∧
    verifyErrors request_type_5_frame = [] ∧
    verify request_type_0_frame = false ∧
    verifyErrors request_type_0_frame = ["request_type"] := by
  decide

/-- C4: a frame whose `power_status` byte is zero and whose checksum
byte matches the recomputed checksum passes `_verify` with no
verification error recorded (no field-range validation runs), and
converts to the Off sentinel — `power_status = OFF`, every other field
`None` — whatever the remaining payload bytes hold. -/
theorem off_frame_decodes_to_off_sentinel (s : VevorHeaterStatusBle)
    (h0 : s.power_status = 0) (hc : checksumOf s = s.checksum) :
    verify s = true ∧ verifyErrors s = [] ∧
    from_ble_status s = some { power_status := some PowerStatus.off } := by
  have he : verifyErrors s = [] := by
    rw [verifyErrors, if_neg (by simp [h0]), if_neg (not_not_intro hc)]
    rfl
  exact ⟨by simp [verify, he], he, by rw [from_ble_status, if_pos h0]⟩

/-- Witness for C4: a concrete off frame (all bytes zero). -/
theorem off_frame_decodes_to_off_sentinel_witness :
    verify off_frame = true ∧ verifyErrors off_frame = [] ∧
    from_ble_status off_frame =
      some { power_status := some PowerStatus.off } :=
  off_frame_decodes_to_off_sentinel off_frame (by decide) (by decide)

/-- C5: whenever the checksum byte differs from the recomputed sum of the
eleven verified fields mod 256, `_verify` records `"checksum"` and
returns `False` — unconditionally, for powered-off frames included. -/
theorem checksum_mismatch_rejected (s : VevorHeaterStatusBle)
    (h : checksumOf s ≠ s.checksum) :
    verify s = false ∧ "checksum" ∈ verifyErrors s := by
  have hm : "checksum" ∈ verifyErrors s := by
    rw [verifyErrors]
    refine List.mem_append_right _ ?_
    rw [if_pos h]
    exact List.mem_singleton_self _
  refine ⟨?_, hm⟩
  cases he : verifyErrors s with
  | nil => rw [he] at hm; exact absurd hm (List.not_mem_nil _)
  | cons a l => simp [verify, he]

/-- Witness for C5: the all-zero frame with checksum byte 1. -/
theorem checksum_mismatch_rejected_witness :
    verify bad_checksum_frame = false ∧
    "checksum" ∈ verifyErrors bad_checksum_frame :=
  checksum_mismatch_rejected bad_checksum_frame (by decide)

/-- Counterexample for C6: the claim says a 16-byte buffer is never
rejected for its length, but the unpack format `"<HBBBBHBBBHHHBxB"`
describes 20 bytes, so a 16-byte buffer makes `struct.unpack` raise and
`from_ble_data_array` produces no value at all. -/
theorem c6_counterexample :
    from_ble_data_array (List.replicate 16 0) = none := by
  decide

/-- C6 as amended: `struct.unpack` accepts a buffer exactly when it is
20 bytes long; any other length raises `struct.error` (an exception
escaping `from_ble_data_array`, not a typed rejection). -/
theorem unpack_succeeds_iff_length_20 (buffer : List Nat) :
    (unpack_status buffer).isSome = true ↔ buffer.length = 20 := by
  rw [unpack_status]
  split <;> simp_all

/-- C7: every outgoing frame is
`[0xAA, 0x55, 0x0C, 0x22, request_type, param, 0x00, checksum]` with
`checksum = sum(bytes[2:7]) mod 256`, for every mode byte and every
target byte, and the three hard-coded frames are exactly the claimed
byte sequences. -/
theorem encode_command_frames (mode target : Nat)
    (_hm : mode < 256) (_ht : target < 256) :
    set_operational_mode_data mode =
      [0xAA, 0x55, 0x0C, 0x22, 0x02, mode, 0x00, (0x30 + mode) % 256] ∧
    (set_operational_mode_data mode).getD 7 0 =
      (((set_operational_mode_data mode).drop 2).take 5).sum % 256 ∧
    set_target_data target =
      [0xAA, 0x55, 0x0C, 0x22, 0x04, target, 0x00, (0x32 + target) % 256] ∧
    (set_target_data target).getD 7 0 =
      (((set_target_data target).drop 2).take 5).sum % 256 ∧
    turn_on_data = [0xAA, 0x55, 0x0C, 0x22, 0x03, 0x01, 0x00, 0x32] ∧
    turn_on_data.getD 7 0 = ((turn_on_data.drop 2).take 5).sum % 256 ∧
    turn_off_data = [0xAA, 0x55, 0x0C, 0x22, 0x03, 0x00, 0x00, 0x31] ∧
    turn_off_data.getD 7 0 = ((turn_off_data.drop 2).take 5).sum % 256 ∧
    refresh_status_data = [0xAA, 0x55, 0x0C, 0x22, 0x01, 0x00, 0x00, 0x2F] ∧
    refresh_status_data.getD 7 0 =
      ((refresh_status_data.drop 2).take 5).sum % 256 := by
  refine ⟨?_, ?_, ?_, ?_, by decide, by decide, by decide, by decide,
    by decide, by decide⟩
  · simp [set_operational_mode_data]
    omega
  · simp [set_operational_mode_data]
  · simp [set_target_data]
    omega
  · simp [set_target_data]

/-- Witness for C7: mode byte 2 (TARGET_TEMPERATURE), target byte 7. -/
theorem encode_command_frames_witness :
    set_operational_mode_data 2 =
      [0xAA, 0x55, 0x0C, 0x22, 0x02, 2, 0x00, (0x30 + 2) % 256] ∧
    (set_operational_mode_data 2).getD 7 0 =
      (((set_operational_mode_data 2).drop 2).take 5).sum % 256 ∧
    set_target_data 7 =
      [0xAA, 0x55, 0x0C, 0x22, 0x04, 7, 0x00, (0x32 + 7) % 256] ∧
    (set_target_data 7).getD 7 0 =
      (((set_target_data 7).drop 2).take 5).sum % 256 ∧
    turn_on_data = [0xAA, 0x55, 0x0C, 0x22, 0x03, 0x01, 0x00, 0x32] ∧
    turn_on_data.getD 7 0 = ((turn_on_data.drop 2).take 5).sum % 256 ∧
    turn_off_data = [0xAA, 0x55, 0x0C, 0x22, 0x03, 0x00, 0x00, 0x31] ∧
    turn_off_data.getD 7 0 = ((turn_off_data.drop 2).take 5).sum % 256 ∧
    refresh_status_data = [0xAA, 0x55, 0x0C, 0x22, 0x01, 0x00, 0x00, 0x2F] ∧
    refresh_status_data.getD 7 0 =
      ((refresh_status_data.drop 2).take 5).sum % 256 :=
  encode_command_frames 2 7 (by decide) (by decide)

/-! Helper lemmas for totality of the enum conversions. -/

lemma powerStatus_ofNat_isSome (n : Nat) (h : n < 3) :
    (PowerStatus.ofNat? n).isSome = true := by
  interval_cases n <;> rfl

lemma operationalStatus_ofNat_isSome (n : Nat) (h : n < 5) :
    (OperationalStatus.ofNat? n).isSome = true := by
  interval_cases n <;> rfl

lemma heaterError_ofNat_isSome (n : Nat) (h : n < 11) :
    (HeaterError.ofNat? n).isSome = true := by
  interval_cases n <;> rfl

/-- Shape of `from_ble_status` on a powered-on frame whose fields lie in
the ranges `_verify` enforces: the conversion produces a fully populated
record, with `operational_mode` following the raw mode byte and
`current_power_level` equal to `target_temperature_or_level` (the `+ 1`
branch being dead code). -/
lemma from_ble_status_on (s : VevorHeaterStatusBle) (hp : s.power_status ≠ 0)
    (hps : s.power_status = 1 ∨ s.power_status = 2)
    (hos : s.operational_status < 5) (hde : s.display_error < 11)
    (hmode : s.operational_mode = 0 ∨ s.operational_mode = 1 ∨
      s.operational_mode = 2) :
    ∃ ps os err om,
      from_ble_status s = some
        { power_status := some ps
          operational_mode := om
          operational_status := some os
          elevation := some s.elevation
          target_temperature :=
            if om = some OperationalMode.targetTemperature then
              some s.target_temperature_or_level
            else none
          target_power_level :=
            if om = some OperationalMode.powerLevel then
              some s.target_temperature_or_level
            else none
          current_power_level := some s.target_temperature_or_level
          input_voltage_decivolts := some s.input_voltage_decivolts
          combustion_temperature := some s.combustion_temperature
          room_temperature := some s.room_temperature
          error := some err } ∧
      (s.operational_mode = 0 → om = none) ∧
      (s.operational_mode = 1 → om = some OperationalMode.powerLevel) ∧
      (s.operational_mode = 2 → om = some OperationalMode.targetTemperature)
    := by
  obtain ⟨ps, hps2⟩ := Option.isSome_iff_exists.mp
    (powerStatus_ofNat_isSome s.power_status (by omega))
  obtain ⟨os, hos2⟩ := Option.isSome_iff_exists.mp
    (operationalStatus_ofNat_isSome s.operational_status hos)
  have herr' : ∃ err,
      (if s.display_error ≠ 0 then HeaterError.ofNat? s.display_error
       else some HeaterError.noError) = some err := by
    by_cases hd : s.display_error = 0
    · exact ⟨HeaterError.noError, by rw [if_neg (not_not_intro hd)]⟩
    · rw [if_pos hd]
      exact Option.isSome_iff_exists.mp
        (heaterError_ofNat_isSome s.display_error hde)
  obtain ⟨err, herr2⟩ := herr'
  rcases hmode with h0 | h1 | h2
  · refine ⟨ps, os, err, none, ?_, fun _ => rfl, fun h => by omega,
      fun h => by omega⟩
    rw [from_ble_status, if_neg hp, if_neg (not_not_intro h0)]
    simp only [hps2, hos2, herr2, Option.some_bind]
    rfl
  · refine ⟨ps, os, err, some OperationalMode.powerLevel, ?_,
      fun h => by omega, fun _ => rfl, fun h => by omega⟩
    have hom : (if s.operational_mode ≠ 0 then
        (OperationalMode.ofNat? s.operational_mode).map some
        else some none) = some (some OperationalMode.powerLevel) := by
      rw [if_pos (by omega), h1]; rfl
    rw [from_ble_status, if_neg hp]
    simp only [hom, hps2, hos2, herr2, Option.some_bind]
    rfl
  · refine ⟨ps, os, err, some OperationalMode.targetTemperature, ?_,
      fun h => by omega, fun h => by omega, fun _ => rfl⟩
    have hom : (if s.operational_mode ≠ 0 then
        (OperationalMode.ofNat? s.operational_mode).map some
        else some none) = some (some OperationalMode.targetTemperature) := by
      rw [if_pos (by omega), h2]; rfl
    rw [from_ble_status, if_neg hp]
    simp only [hom, hps2, hos2, herr2, Option.some_bind]
    rfl

/-- C10: on any frame accepted by `_verify`, `from_ble_status` is total
(no enum lookup raises), and a powered-on frame with raw
`operational_mode = 0` converts to a status whose `operational_mode`,
`target_temperature` and `target_power_level` are all unset. -/
theorem from_ble_status_total_on_verified (s : VevorHeaterStatusBle)
    (hv : verify s = true) :
    (from_ble_status s).isSome = true ∧
    (s.power_status ≠ 0 → s.operational_mode = 0 →
      (from_ble_status s).map (fun st =>
          (st.operational_mode, st.target_temperature,
            st.target_power_level)) = some (none, none, none)) := by
  by_cases hp : s.power_status = 0
  · refine ⟨by rw [from_ble_status, if_pos hp]; rfl, fun hne _ => absurd hp hne⟩
  · obtain ⟨-, hps, -, hos, hmode, -, -, -, -, hde, -⟩ :=
      verify_true_ranges s hv hp
    obtain ⟨ps, os, err, om, hshape, hom0, -, -⟩ :=
      from_ble_status_on s hp hps hos hde hmode
    constructor
    · rw [hshape]; rfl
    · intro _ h0
      rw [hshape, hom0 h0]
      simp

/-- Witness for C10: the verified powered-on frame with raw mode byte 0. -/
theorem from_ble_status_total_on_verified_witness :
    (from_ble_status mode_zero_frame).isSome = true ∧
    (mode_zero_frame.power_status ≠ 0 →
      mode_zero_frame.operational_mode = 0 →
      (from_ble_status mode_zero_frame).map (fun st =>
          (st.operational_mode, st.target_temperature,
            st.target_power_level)) = some (none, none, none)) :=
  from_ble_status_total_on_verified mode_zero_frame (by decide)

/-- Counterexample for C8: the claim says exactly one of
`target_temperature` and `target_power_level` is populated for every
decoded powered-on status, but `_verify` accepts a powered-on frame with
raw `operational_mode = 0` (target byte 0), and `from_ble_status` then
leaves both target fields unset. -/
theorem c8_counterexample :
    verify mode_zero_frame = true ∧
    mode_zero_frame.power_status ≠ 0 ∧
    (from_ble_status mode_zero_frame).map (fun st =>
        (st.target_temperature, st.target_power_level)) =
      some (none, none) := by
  decide

/-- C8 as amended: for a status decoded from a verified powered-on
frame, the populated target field is determined by the raw mode byte —
mode 1 populates only `target_power_level` (range 1–10), mode 2
populates only `target_temperature` (range 8–36), and mode 0 (also
accepted by `_verify`) populates neither. -/
theorem targets_determined_by_mode (s : VevorHeaterStatusBle)
    (st : VevorHeaterStatus) (hv : verify s = true)
    (hp : s.power_status ≠ 0) (hd : from_ble_status s = some st) :
    (s.operational_mode = 1 →
      st.target_power_level = some s.target_temperature_or_level ∧
      1 ≤ s.target_temperature_or_level ∧
      s.target_temperature_or_level ≤ 10 ∧
      st.target_temperature = none) ∧
    (s.operational_mode = 2 →
      st.target_temperature = some s.target_temperature_or_level ∧
      8 ≤ s.target_temperature_or_level ∧
      s.target_temperature_or_level ≤ 36 ∧
      st.target_power_level = none) ∧
    (s.operational_mode = 0 →
      st.target_temperature = none ∧ st.target_power_level = none) := by
  obtain ⟨-, hps, -, hos, hmode, ht1, ht2, -, -, hde, -⟩ :=
    verify_true_ranges s hv hp
  obtain ⟨ps, os, err, om, hshape, hom0, hom1, hom2⟩ :=
    from_ble_status_on s hp hps hos hde hmode
  rw [hd] at hshape
  have hst := (Option.some.injEq _ _).mp hshape.symm
  refine ⟨fun h1 => ?_, fun h2 => ?_, fun h0 => ?_⟩
  · rw [← hst, hom1 h1]
    refine ⟨by simp, (ht1 h1).1, by have := (ht1 h1).2; omega, by simp⟩
  · rw [← hst, hom2 h2]
    refine ⟨by simp, (ht2 h2).1, by have := (ht2 h2).2; omega, by simp⟩
  · rw [← hst, hom0 h0]
    exact ⟨by simp, by simp⟩

/-- The status decoded from `power_level_frame`. -/
def power_level_status : VevorHeaterStatus :=
  { power_status := some PowerStatus.running
    operational_mode := some OperationalMode.powerLevel
    operational_status := some OperationalStatus.warmup
    elevation := some 0
    target_temperature := none
    target_power_level := some 7
    current_power_level := some 7
    input_voltage_decivolts := some 0
    combustion_temperature := some 0
    room_temperature := some 0
    error := some HeaterError.noError }

/-- Witness for the amended C8: a verified PowerLevel frame with
target byte 7. -/
theorem targets_determined_by_mode_witness :
    (power_level_frame.operational_mode = 1 →
      power_level_status.target_power_level =
        some power_level_frame.target_temperature_or_level ∧
      1 ≤ power_level_frame.target_temperature_or_level ∧
      power_level_frame.target_temperature_or_level ≤ 10 ∧
      power_level_status.target_temperature = none) ∧
    (power_level_frame.operational_mode = 2 →
      power_level_status.target_temperature =
        some power_level_frame.target_temperature_or_level ∧
      8 ≤ power_level_frame.target_temperature_or_level ∧
      power_level_frame.target_temperature_or_level ≤ 36 ∧
      power_level_status.target_power_level = none) ∧
    (power_level_frame.operational_mode = 0 →
      power_level_status.target_temperature = none ∧
      power_level_status.target_power_level = none) :=
  targets_determined_by_mode power_level_frame power_level_status
    (by decide) (by decide) (by decide)

/-! Step equations for the notification-wait loop. -/

lemma awaitResponse_nil (data : List Nat) :
    awaitResponse data [] = none := rfl

lemma awaitResponse_cons_raise (data buffer : List Nat)
    (rest : List (List Nat)) (hf : from_ble_data_array buffer = none) :
    awaitResponse data (buffer :: rest) = awaitResponse data rest := by
  simp [awaitResponse, hf]

lemma awaitResponse_cons_invalid (data buffer : List Nat)
    (rest : List (List Nat)) (hf : from_ble_data_array buffer = some none) :
    awaitResponse data (buffer :: rest) = some none := by
  simp [awaitResponse, hf]

lemma awaitResponse_cons_mismatch (data buffer : List Nat)
    (rest : List (List Nat)) (raw : VevorHeaterStatusBle)
    (hf : from_ble_data_array buffer = some (some raw))
    (hr : raw.request_type ≠ data.getD 4 0) :
    awaitResponse data (buffer :: rest) = some none := by
  have hr' : raw.request_type ≠ data[4]?.getD 0 := by
    simpa [List.getD] using hr
  simp [awaitResponse, hf, hr']

lemma awaitResponse_cons_match (data buffer : List Nat)
    (rest : List (List Nat)) (raw : VevorHeaterStatusBle)
    (st : VevorHeaterStatus)
    (hf : from_ble_data_array buffer = some (some raw))
    (hr : raw.request_type = data.getD 4 0)
    (hc : from_ble_status raw = some st) :
    awaitResponse data (buffer :: rest) = some (some st) := by
  have hr' : raw.request_type = data[4]?.getD 0 := by
    simpa [List.getD] using hr
  simp [awaitResponse, hf, hr', hc]

/-- The raw frame unpacked from `mismatch_buffer` (its `request_type`
byte is 2, so it answers a SET_OP_MODE request, not READ_STATUS). -/
def mismatch_buffer_frame : VevorHeaterStatusBle :=
  { magic_constant := 0, request_type := 2, power_status := 1, error := 0,
    operational_status := 3, elevation := 0, operational_mode := 2,
    target_temperature_or_level := 20, current_power_level := 3,
    input_voltage_decivolts := 120, combustion_temperature := 0,
    room_temperature := 0, display_error := 0, checksum := 149 }

/-- The raw frame unpacked from `unverified_buffer` (its checksum byte,
150, differs from the recomputed 149). -/
def unverified_buffer_frame : VevorHeaterStatusBle :=
  { mismatch_buffer_frame with request_type := 1, checksum := 150 }

/-- Counterexample for C1: with a READ_STATUS command in flight
(`request_type` byte 1), a single validated notification carrying
`request_type = 2` resolves the wait immediately with no status — the
session does not keep waiting, and a subsequent matching notification is
never consumed (the call has already resolved with `None`); the matching
notification alone would have resolved the call with the decoded
status. -/
theorem c1_counterexample :
    awaitResponse refresh_status_data [mismatch_buffer] = some none ∧
    awaitResponse refresh_status_data [mismatch_buffer, match_buffer] =
      some none ∧
    awaitResponse refresh_status_data [match_buffer] =
      some (some match_buffer_status) := by
  decide

/-- C1 as amended: a notification that unpacks and verifies but carries
a `request_type` different from byte 4 of the outgoing frame resolves
the in-flight send immediately with `None` (whatever notifications
follow), and so does a notification that unpacks but fails `_verify`;
only a notification whose buffer length is wrong (so `struct.unpack`
raises before the latch is set) leaves the session waiting. -/
theorem await_resolves_none_on_invalid_or_mismatch
    (data buffer invalid_buffer : List Nat)
    (rest rest2 : List (List Nat)) (raw invalid_raw : VevorHeaterStatusBle)
    (h1 : unpack_status buffer = some raw) (h2 : verify raw = true)
    (h3 : raw.request_type ≠ data.getD 4 0)
    (h4 : unpack_status invalid_buffer = some invalid_raw)
    (h5 : verify invalid_raw = false) :
    awaitResponse data (buffer :: rest) = some none ∧
    awaitResponse data (invalid_buffer :: rest2) = some none := by
  constructor
  · refine awaitResponse_cons_mismatch data buffer rest raw ?_ h3
    simp [from_ble_data_array, h1, h2]
  · refine awaitResponse_cons_invalid data invalid_buffer rest2 ?_
    simp [from_ble_data_array, h4, h5]

/-- Witness for the amended C1: the mismatched and checksum-corrupted
buffers against a READ_STATUS command, each followed by a matching
notification that is never reached. -/
theorem await_resolves_none_on_invalid_or_mismatch_witness :
    awaitResponse refresh_status_data
      (mismatch_buffer :: [match_buffer]) = some none ∧
    awaitResponse refresh_status_data
      (unverified_buffer :: [match_buffer]) = some none :=
  await_resolves_none_on_invalid_or_mismatch refresh_status_data
    mismatch_buffer unverified_buffer [match_buffer] [match_buffer]
    mismatch_buffer_frame unverified_buffer_frame
    (by decide) (by decide) (by decide) (by decide) (by decide)

/-- C9: when the wait loop resolves with a decoded status `st` (a
validated, request-type-matching response), the stored session status is
overwritten wholesale with `st` — the new value does not depend on the
previous one — while a wait that resolves without a status leaves the
stored status untouched; and a resolution with a status only ever
happens because some delivered notification unpacked, verified, matched
the outgoing frame's `request_type` byte, and decoded to exactly `st`. -/
theorem session_status_overwrite (data : List Nat)
    (notifs : List (List Nat)) (old : Option VevorHeaterStatus)
    (st : VevorHeaterStatus)
    (h : awaitResponse data notifs = some (some st)) :
    sessionUpdate old (some st) = some st ∧
    sessionUpdate old none = old ∧
    ∃ buffer ∈ notifs, ∃ raw : VevorHeaterStatusBle,
      unpack_status buffer = some raw ∧ verify raw = true ∧
      raw.request_type = data.getD 4 0 ∧ from_ble_status raw = some st := by
  refine ⟨rfl, rfl, ?_⟩
  induction notifs with
  | nil => exact absurd (awaitResponse_nil data ▸ h) (by simp)
  | cons buffer rest ih =>
    cases hf : from_ble_data_array buffer with
    | none =>
      rw [awaitResponse_cons_raise data buffer rest hf] at h
      obtain ⟨b, hb, hrest⟩ := ih h
      exact ⟨b, List.mem_cons_of_mem _ hb, hrest⟩
    | some o =>
      cases o with
      | none =>
        rw [awaitResponse_cons_invalid data buffer rest hf] at h
        exact absurd h (by simp)
      | some raw =>
        by_cases hr : raw.request_type ≠ data.getD 4 0
        · rw [awaitResponse_cons_mismatch data buffer rest raw hf hr] at h
          exact absurd h (by simp)
        · have hr' := not_not.mp hr
          cases hc : from_ble_status raw with
          | none =>
            have hstep :
                awaitResponse data (buffer :: rest) =
                  awaitResponse data rest := by
              have hr2 : raw.request_type = data[4]?.getD 0 := by
                simpa [List.getD] using hr'
              simp [awaitResponse, hf, hr2, hc]
            rw [hstep] at h
            obtain ⟨b, hb, hrest⟩ := ih h
            exact ⟨b, List.mem_cons_of_mem _ hb, hrest⟩
          | some st2 =>
            rw [awaitResponse_cons_match data buffer rest raw st2 hf hr' hc]
              at h
            have hst2 : st2 = st := by simpa using h
            subst hst2
            have hun : ∃ r, unpack_status buffer = some r ∧
                verify r = true ∧ r = raw := by
              cases hu : unpack_status buffer with
              | none =>
                simp only [from_ble_data_array, hu] at hf
                exact absurd hf (by simp)
              | some r =>
                simp only [from_ble_data_array, hu] at hf
                by_cases hv : verify r = true
                · rw [if_pos hv] at hf
                  exact ⟨r, rfl, hv, by simpa using hf⟩
                · rw [if_neg hv] at hf
                  exact absurd hf (by simp)
            obtain ⟨r, hu, hvr, hraw⟩ := hun
            subst hraw
            exact ⟨buffer, List.mem_cons_self _ _, r, hu, hvr, hr', hc⟩

/-- Witness for C9: a READ_STATUS exchange answered by `match_buffer`,
overwriting a previously stored Off status. -/
theorem session_status_overwrite_witness :
    sessionUpdate (some { power_status := some PowerStatus.off })
        (some match_buffer_status) = some match_buffer_status ∧
    sessionUpdate (some { power_status := some PowerStatus.off }) none =
      some { power_status := some PowerStatus.off } ∧
    ∃ buffer ∈ [match_buffer], ∃ raw : VevorHeaterStatusBle,
      unpack_status buffer = some raw ∧ verify raw = true ∧
      raw.request_type = refresh_status_data.getD 4 0 ∧
      from_ble_status raw = some match_buffer_status :=
  session_status_overwrite refresh_status_data [match_buffer]
    (some { power_status := some PowerStatus.off }) match_buffer_status
    (by decide)

end Vevor
